import Mathlib

set_option maxRecDepth 40000

/-!
Verification development for the valoranl-scrapping unification engine.

The definitions below are shallow embeddings of the Python code in
`scrapping/unify_to_mysql.py`, `kimi/valora_autonomous.py` and
`valoranl_scraper.py`.  Pure Python helpers become Lean functions; the
MySQL-backed upsert/stale-deactivation code becomes explicit state
passing over in-memory stores whose rows carry exactly the columns the
SQL statements read and write.  Python floats are modelled as exact
rationals, timestamps as integer seconds, SQL `NOW()` as an explicit
`now` parameter.  The `hashlib.sha256(...).hexdigest()` primitive is
implemented in full (FIPS 180-4) so that hash-valued claims can be
settled on concrete inputs.
-/

namespace ValoraNL

/-! ## Python string primitives -/

/-- Characters removed by Python `str.strip()` (ASCII whitespace; the
    inputs relevant to the claims contain no exotic Unicode spaces). -/
def pySpace (c : Char) : Bool :=
  c = ' ' ∨ c = '\t' ∨ c = '\n' ∨ c = '\r' ∨ c.toNat = 11 ∨ c.toNat = 12

/-- Python `str.strip()`. -/
def pyStrip (s : String) : String :=
  String.mk (((s.data.dropWhile pySpace).reverse.dropWhile pySpace).reverse)

/-- Python `str.lower()` (ASCII case mapping; the keywords and hosts the
    claims exercise are ASCII). -/
def strLower (s : String) : String := String.mk (s.data.map Char.toLower)

/-- Python `str.upper()` (ASCII case mapping). -/
def strUpper (s : String) : String := String.mk (s.data.map Char.toUpper)

/-- Does `l` start with `p`? -/
def listStartsWith : List Char → List Char → Bool
  | _, [] => true
  | [], _ :: _ => false
  | h :: hs, n :: ns => h = n && listStartsWith hs ns

/-- Does `hay` contain `needle` as a contiguous sublist? -/
def listContainsSub : List Char → List Char → Bool
  | [], needle => needle.isEmpty
  | h :: t, needle => listStartsWith (h :: t) needle || listContainsSub t needle

/-- Python substring test `needle in hay`. -/
def containsSub (hay needle : String) : Bool :=
  listContainsSub hay.data needle.data

/-! ## hashlib.sha256 — full FIPS 180-4 implementation over Nat words -/

/-- The word modulus 2^32. -/
def w32 : Nat := 4294967296

def add32 (a b : Nat) : Nat := (a + b) % w32

/-- Rotate a 32-bit word right by `n` bits. -/
def rotr (n x : Nat) : Nat := ((x >>> n) ||| ((x <<< (32 - n)) % w32)) % w32

def bigSigma0 (x : Nat) : Nat := rotr 2 x ^^^ rotr 13 x ^^^ rotr 22 x
def bigSigma1 (x : Nat) : Nat := rotr 6 x ^^^ rotr 11 x ^^^ rotr 25 x
def smallSigma0 (x : Nat) : Nat := rotr 7 x ^^^ rotr 18 x ^^^ (x >>> 3)
def smallSigma1 (x : Nat) : Nat := rotr 17 x ^^^ rotr 19 x ^^^ (x >>> 10)
def chWord (x y z : Nat) : Nat := (x &&& y) ^^^ ((x ^^^ 4294967295) &&& z)
def majWord (x y z : Nat) : Nat := (x &&& y) ^^^ (x &&& z) ^^^ (y &&& z)

/-- The 64 SHA-256 round constants (FIPS 180-4, written in decimal). -/
def k256 : List Nat :=
  [1116352408, 1899447441, 3049323471, 3921009573, 961987163, 1508970993,
   2453635748, 2870763221, 3624381080, 310598401, 607225278, 1426881987,
   1925078388, 2162078206, 2614888103, 3248222580, 3835390401, 4022224774,
   264347078, 604807628, 770255983, 1249150122, 1555081692, 1996064986,
   2554220882, 2821834349, 2952996808, 3210313671, 3336571891, 3584528711,
   113926993, 338241895, 666307205, 773529912, 1294757372, 1396182291,
   1695183700, 1986661051, 2177026350, 2456956037, 2730485921, 2820302411,
   3259730800, 3345764771, 3516065817, 3600352804, 4094571909, 275423344,
   430227734, 506948616, 659060556, 883997877, 958139571, 1322822218,
   1537002063, 1747873779, 1955562222, 2024104815, 2227730452, 2361852424,
   2428436474, 2756734187, 3204031479, 3329325298]

/-- UTF-8 encoding of one Unicode scalar value (Python `str.encode("utf-8")`). -/
def utf8EncodeChar (c : Char) : List Nat :=
  let n := c.toNat
  if n < 0x80 then [n]
  else if n < 0x800 then
    [0xc0 ||| (n >>> 6), 0x80 ||| (n &&& 0x3f)]
  else if n < 0x10000 then
    [0xe0 ||| (n >>> 12), 0x80 ||| ((n >>> 6) &&& 0x3f), 0x80 ||| (n &&& 0x3f)]
  else
    [0xf0 ||| (n >>> 18), 0x80 ||| ((n >>> 12) &&& 0x3f),
     0x80 ||| ((n >>> 6) &&& 0x3f), 0x80 ||| (n &&& 0x3f)]

def utf8Encode (s : String) : List Nat :=
  s.data.foldr (fun c acc => utf8EncodeChar c ++ acc) []

/-- SHA-256 message padding: append 0x80, zeros, and the 64-bit big-endian
    bit length, reaching a multiple of 64 bytes. -/
def padMessage (msg : List Nat) : List Nat :=
  let len := msg.length
  let bitLen := 8 * len
  let padZeros := (119 - len % 64) % 64
  msg ++ [0x80] ++ List.replicate padZeros 0 ++
    [(bitLen >>> 56) &&& 0xff, (bitLen >>> 48) &&& 0xff, (bitLen >>> 40) &&& 0xff,
     (bitLen >>> 32) &&& 0xff, (bitLen >>> 24) &&& 0xff, (bitLen >>> 16) &&& 0xff,
     (bitLen >>> 8) &&& 0xff, bitLen &&& 0xff]

/-- Big-endian 4-byte groups into 32-bit words. -/
def bytesToWords : List Nat → List Nat
  | b0 :: b1 :: b2 :: b3 :: rest =>
      ((((b0 <<< 8) ||| b1) <<< 8 ||| b2) <<< 8 ||| b3) :: bytesToWords rest
  | _ => []

/-- Split a word list into 16-word blocks (fuel-based for structural recursion). -/
def chunk16 : Nat → List Nat → List (List Nat)
  | 0, _ => []
  | _ + 1, [] => []
  | fuel + 1, ws => ws.take 16 :: chunk16 fuel (ws.drop 16)

/-- Next word of the message schedule, from the current schedule suffix. -/
def scheduleStep (w : List Nat) : Nat :=
  let n := w.length
  add32 (add32 (smallSigma1 (w.getD (n - 2) 0)) (w.getD (n - 7) 0))
        (add32 (smallSigma0 (w.getD (n - 15) 0)) (w.getD (n - 16) 0))

/-- Extend a 16-word block to the 64-word schedule. -/
def extendSchedule : Nat → List Nat → List Nat
  | 0, w => w
  | n + 1, w => extendSchedule n (w ++ [scheduleStep w])

structure Hash8 where
  a : Nat
  b : Nat
  c : Nat
  d : Nat
  e : Nat
  f : Nat
  g : Nat
  h : Nat
deriving DecidableEq

/-- One SHA-256 compression round. -/
def roundStep (st : Hash8) (kw : Nat × Nat) : Hash8 :=
  let t1 := add32 st.h (add32 (bigSigma1 st.e) (add32 (chWord st.e st.f st.g) (add32 kw.1 kw.2)))
  let t2 := add32 (bigSigma0 st.a) (majWord st.a st.b st.c)
  ⟨add32 t1 t2, st.a, st.b, st.c, add32 st.d t1, st.e, st.f, st.g⟩

/-- Process one 512-bit block. -/
def compressBlock (st : Hash8) (block : List Nat) : Hash8 :=
  let w := extendSchedule 48 block
  let r := (k256.zip w).foldl roundStep st
  ⟨add32 st.a r.a, add32 st.b r.b, add32 st.c r.c, add32 st.d r.d,
   add32 st.e r.e, add32 st.f r.f, add32 st.g r.g, add32 st.h r.h⟩

def shaInit : Hash8 :=
  ⟨1779033703, 3144134277, 1013904242, 2773480762,
   1359893119, 2600822924, 528734635, 1541459225⟩

def hexDigit (n : Nat) : Char :=
  if n < 10 then Char.ofNat (48 + n) else Char.ofNat (87 + n)

/-- Fixed-width lowercase hexadecimal rendering (most significant digit first). -/
def toHex : Nat → Nat → List Char
  | 0, _ => []
  | d + 1, n => toHex d (n >>> 4) ++ [hexDigit (n &&& 0xf)]

/-- Model of `hashlib.sha256(s.encode("utf-8")).hexdigest()`. -/
def sha256_hex (s : String) : String :=
  let bytes := padMessage (utf8Encode s)
  let words := bytesToWords bytes
  let st := (chunk16 words.length words).foldl compressBlock shaInit
  String.mk (toHex 8 st.a ++ toHex 8 st.b ++ toHex 8 st.c ++ toHex 8 st.d ++
             toHex 8 st.e ++ toHex 8 st.f ++ toHex 8 st.g ++ toHex 8 st.h)


/-! ## urllib.parse.urlsplit / urlunsplit (the fragments used by normalize_url) -/

structure SplitResult where
  scheme : String
  netloc : String
  path : String
  query : String
  fragment : String
deriving DecidableEq

/-- Characters legal in a URL scheme (`scheme_chars` in urllib.parse). -/
def isSchemeChar (c : Char) : Bool :=
  c.isAlpha || c.isDigit || c = '+' || c = '-' || c = '.'

/-- Split a list at the first occurrence of `c`, returning the parts
    before and after it (the delimiter removed), or `none`. -/
def splitAtFirst (c : Char) : List Char → Option (List Char × List Char)
  | [] => none
  | x :: xs =>
    if x = c then some ([], xs)
    else (splitAtFirst c xs).map (fun p => (x :: p.1, p.2))

/-- Model of `urllib.parse.urlsplit`.  Faithful to CPython for the URLs this
    program handles: tab/CR/LF bytes are removed, a leading
    `letter(scheme_chars)*:` is detached and lower-cased as the scheme,
    `//netloc` runs to the first of `/?#`, the fragment is split off at
    the first `#`, then the query at the first `?`.  (CPython's
    bracketed-IPv6 validation, which only raises errors, is omitted.) -/
def urlsplit (url : String) : SplitResult :=
  let l := url.data.filter (fun c => ¬ (c = '\t' ∨ c = '\r' ∨ c = '\n'))
  let (scheme, rest) :=
    match splitAtFirst ':' l with
    | some (before, after) =>
      if before ≠ [] ∧ (l.headD ' ').isAlpha ∧ before.all isSchemeChar
      then (before.map Char.toLower, after)
      else ([], l)
    | none => ([], l)
  let (netloc, rest) :=
    if rest.take 2 = ['/', '/'] then
      let afterSlashes := rest.drop 2
      (afterSlashes.takeWhile (fun c => ¬ (c = '/' ∨ c = '?' ∨ c = '#')),
       afterSlashes.dropWhile (fun c => ¬ (c = '/' ∨ c = '?' ∨ c = '#')))
    else ([], rest)
  let (rest, fragment) :=
    match splitAtFirst '#' rest with
    | some (before, after) => (before, after)
    | none => (rest, [])
  let (path, query) :=
    match splitAtFirst '?' rest with
    | some (before, after) => (before, after)
    | none => (rest, [])
  ⟨String.mk scheme, String.mk netloc, String.mk path, String.mk query, String.mk fragment⟩

/-- Model of `urllib.parse.urlunsplit`. -/
def urlunsplit (p : SplitResult) : String :=
  let url0 := p.path
  let url1 :=
    if p.netloc ≠ "" ∨ url0.take 2 = "//" then
      "//" ++ p.netloc ++ (if url0 ≠ "" ∧ url0.take 1 ≠ "/" then "/" ++ url0 else url0)
    else url0
  let url2 := if p.scheme ≠ "" then p.scheme ++ ":" ++ url1 else url1
  let url3 := if p.query ≠ "" then url2 ++ "?" ++ p.query else url2
  if p.fragment ≠ "" then url3 ++ "#" ++ p.fragment else url3

/-- Python `re.sub(r"/+", "/", s)`: collapse every run of slashes to one. -/
def collapseSlashesL : List Char → List Char
  | [] => []
  | [c] => [c]
  | a :: b :: rest =>
    if a = '/' ∧ b = '/' then collapseSlashesL (b :: rest)
    else a :: collapseSlashesL (b :: rest)

def collapseSlashes (s : String) : String := String.mk (collapseSlashesL s.data)

/-- Python `str.rstrip("/")`. -/
def rstripSlashes (s : String) : String :=
  String.mk ((s.data.reverse.dropWhile (fun c => c = '/')).reverse)

/-- The function `normalize_url` from `scrapping/unify_to_mysql.py`: lower-case
    scheme and netloc, collapse repeated slashes in the path and strip
    trailing slashes, keep the query, drop the fragment. -/
def normalize_url (url : Option String) : Option String :=
  match url with
  | none => none
  | some u =>
    if u = "" then none
    else
      let u := pyStrip u
      if u = "" then none
      else
        let parts := urlsplit u
        let clean_path := rstripSlashes (collapseSlashes parts.path)
        some (urlunsplit ⟨strLower parts.scheme, strLower parts.netloc, clean_path, parts.query, ""⟩)

/-- The `sha256` helper from `scrapping/unify_to_mysql.py`: `None`/empty in,
    `None` out; otherwise the hex digest. -/
def sha256 (value : Option String) : Option String :=
  match value with
  | none => none
  | some s => if s = "" then none else some (sha256_hex s)


/-! ## Numeric model: Python floats as exact rationals -/

/-- Round-half-to-even to an integer, as Python `round` does, computed on
    the numerator/denominator (`f` is the floor, `r` the remainder, and
    `2r` against `d` decides the half). -/
def roundHalfEven (q : ℚ) : ℤ :=
  let n := q.num
  let d : ℤ := (q.den : ℤ)
  let f := Int.ediv n d
  let r := n - f * d
  if 2 * r < d then f
  else if d < 2 * r then f + 1
  else if f % 2 = 0 then f else f + 1

/-- Python `round(q, nd)` on the exact rational model:
    `roundHalfEven(q·10^nd) / 10^nd`, assembled with `mkRat`. -/
def pyRound (q : ℚ) (nd : ℕ) : ℚ :=
  mkRat (roundHalfEven (mkRat (q.num * ((10 ^ nd : ℕ) : ℤ)) q.den)) (10 ^ nd)

def digitChar (n : Nat) : Char := Char.ofNat (48 + n)

def natDecAux : Nat → Nat → List Char
  | 0, _ => []
  | fuel + 1, n =>
    if n < 10 then [digitChar n]
    else natDecAux fuel (n / 10) ++ [digitChar (n % 10)]

/-- Decimal rendering of a natural number. -/
def natDec (n : Nat) : String := String.mk (natDecAux (n + 1) n)

/-- Python `str()` of an int. -/
def intRepr (n : Int) : String :=
  if n < 0 then "-" ++ natDec n.natAbs else natDec n.natAbs

/-- Digits of the fractional part `num/den < 1`, stopping when exact
    (fuel-bounded; every value the program renders is a short finite
    decimal). -/
def fracDigits : Nat → Nat → Nat → List Char
  | 0, _, _ => []
  | fuel + 1, n, d =>
    if n = 0 then []
    else digitChar (n * 10 / d) :: fracDigits fuel (n * 10 % d) d

/-- Python `str()` of a float whose value is a finite decimal: sign,
    integer part, a dot, and the exact fractional digits (`.0` when
    integral), computed from `|num|/den`.  Artifacts of binary floating
    point (shortest-roundtrip repr of non-decimal values, exponent form
    beyond 1e16) are outside the model; every theorem below instantiates
    this only on short decimals. -/
def ratRepr (q : ℚ) : String :=
  let a := q.num.natAbs
  let ds := fracDigits 64 (a % q.den) q.den
  (if q.num < 0 then "-" else "") ++ natDec (a / q.den) ++ "." ++
    (if ds = [] then "0" else String.mk ds)

/-! ## json.dumps on lists of strings -/

def hex4 (n : Nat) : List Char := toHex 4 n

/-- Escape one character inside a JSON string literal, as
    `json.dumps` does: mandatory escapes always, and `\uXXXX` escapes
    (with surrogate pairs above the BMP) when `ensureAscii` is set. -/
def jsonEscapeChar (ensureAscii : Bool) (c : Char) : List Char :=
  let n := c.toNat
  if c = '"' then ['\\', '"']
  else if c = '\\' then ['\\', '\\']
  else if n = 8 then ['\\', 'b']
  else if n = 12 then ['\\', 'f']
  else if c = '\n' then ['\\', 'n']
  else if c = '\r' then ['\\', 'r']
  else if c = '\t' then ['\\', 't']
  else if n < 0x20 then '\\' :: 'u' :: hex4 n
  else if ensureAscii ∧ n > 0x7e then
    if n < 0x10000 then '\\' :: 'u' :: hex4 n
    else
      let m := n - 0x10000
      ('\\' :: 'u' :: hex4 (0xd800 + (m >>> 10))) ++ ('\\' :: 'u' :: hex4 (0xdc00 + (m &&& 0x3ff)))
  else [c]

def jsonQuote (ensureAscii : Bool) (s : String) : String :=
  "\"" ++ String.mk (s.data.foldr (fun c acc => jsonEscapeChar ensureAscii c ++ acc) []) ++ "\""

/-- Python `json.dumps(xs)` for a list of strings; `ensureAscii` selects the
    default (`True`) or the `ensure_ascii=False` variant. -/
def jsonDumpsList (ensureAscii : Bool) (xs : List String) : String :=
  "[" ++ String.intercalate ", " (xs.map (jsonQuote ensureAscii)) ++ "]"


/-! ## Python values and `_normalize_for_compare` -/

/-- A Python value as it appears in the change-detection comparison:
    `None`, a float, a string, or an int. -/
inductive PyVal where
  | none : PyVal
  | float (q : ℚ) : PyVal
  | str (s : String) : PyVal
  | int (n : Int) : PyVal
deriving DecidableEq

def pyOfQ : Option ℚ → PyVal
  | Option.none => .none
  | Option.some q => .float q

def pyOfS : Option String → PyVal
  | Option.none => .none
  | Option.some s => .str s

def pyOfI : Option Int → PyVal
  | Option.none => .none
  | Option.some n => .int n

/-- Method `UnificationEngine._normalize_for_compare`: `None` stays, floats are
    rounded to 2 decimals, strings are stripped with blank becoming
    `None`, everything else passes through. -/
def normalize_for_compare : PyVal → PyVal
  | .none => .none
  | .float q => .float (pyRound q 2)
  | .str s => let t := pyStrip s; if t = "" then .none else .str t
  | .int n => .int n

/-! ## Fingerprint & dedupe hashes -/

/-- The helper `clean_text` from `scrapping/unify_to_mysql.py`. -/
def clean_text (value : Option String) : Option String :=
  match value with
  | none => none
  | some v => let t := pyStrip v; if t = "" then none else some t

/-- Python `str(round(x or 0, 1))` as used by `SQLiteSourceMapper.build_fingerprint`:
    `None` and `0.0` are the falsy int `0` (rendered `0`), anything else a
    rounded float. -/
def chunkRound1 : Option ℚ → String
  | none => "0"
  | some v => if v = 0 then "0" else ratRepr (pyRound v 1)

/-- Python `str(round(x or 0, 0))` from the same function. -/
def chunkRound0 : Option ℚ → String
  | none => "0"
  | some v => if v = 0 then "0" else ratRepr (pyRound v 0)

/-- Python `str(x or 0)` on an optional int. -/
def chunkInt : Option Int → String
  | none => "0"
  | some n => if n = 0 then "0" else intRepr n

/-- Method `SQLiteSourceMapper.build_fingerprint`: SHA-256 over the joined tuple
    (municipality, colony, area rounded to 1 decimal, price rounded to
    whole units, bedrooms), missing pieces as empty string / 0. -/
def build_fingerprint (municipality colony : Option String)
    (area_construction_m2 price_amount : Option ℚ) (bedrooms : Option Int) : String :=
  let chunks := [strLower (pyStrip (municipality.getD "")),
                 strLower (pyStrip (colony.getD "")),
                 chunkRound1 area_construction_m2,
                 chunkRound0 price_amount,
                 chunkInt bedrooms]
  (sha256 (some (String.intercalate "|" chunks))).getD (sha256_hex "")

/-- The dedupe-hash computation shared verbatim by the three mappers'
    `map_row` in `scrapping/unify_to_mysql.py`:
    `url_hash = sha256(normalize_url(url)); dedupe = url_hash or fingerprint`
    (`url` is the `clean_text`-ed raw URL). -/
def mapper_dedupe_hash (url municipality colony : Option String)
    (area price : Option ℚ) (beds : Option Int) : String :=
  (sha256 (normalize_url url)).getD (build_fingerprint municipality colony area price beds)

/-- The `ScrapedListing` dataclass from `kimi/valora_autonomous.py`.  Floats are
    rationals, datetimes integer seconds; the opaque `contact_info` and
    `raw_data` dictionaries, which the engine only serializes and never
    reads back, are carried in already-serialized form. -/
structure ScrapedListing where
  source_code : String
  source_listing_id : Option String
  url : String
  url_hash : String
  status : String := "active"
  price_type : String := "sale"
  price_amount : Option ℚ := none
  currency : String := "MXN"
  property_type : Option String := none
  area_construction_m2 : Option ℚ := none
  area_land_m2 : Option ℚ := none
  bedrooms : Option Int := none
  bathrooms : Option ℚ := none
  half_bathrooms : Option ℚ := none
  parking : Option Int := none
  floors : Option Int := none
  age_years : Option Int := none
  title : Option String := none
  description : Option String := none
  street : Option String := none
  colony : Option String := none
  municipality : Option String := none
  state : String := "Nuevo León"
  country : String := "México"
  postal_code : Option String := none
  lat : Option ℚ := none
  lng : Option ℚ := none
  images : List String := []
  amenities : List String := []
  contact_info : String := "\x7b\x7d"
  raw_data : String := "\x7b\x7d"
  scraped_at : Int := 0
deriving DecidableEq

/-- Python `f"{x or 0}"` on an optional float, as in `compute_fingerprint`. -/
def kimiChunkQ : Option ℚ → String
  | none => "0"
  | some v => if v = 0 then "0" else ratRepr v

/-- Method `ScrapedListing.compute_fingerprint`: truncated SHA-256 of the raw
    (unrounded, case-preserving) field tuple. -/
def compute_fingerprint (l : ScrapedListing) : String :=
  let key := (l.municipality.getD "") ++ "|" ++ (l.colony.getD "") ++ "|" ++
             kimiChunkQ l.area_construction_m2 ++ "|" ++
             kimiChunkQ l.price_amount ++ "|" ++ chunkInt l.bedrooms
  (sha256_hex key).take 32

/-- Method `ScrapedListing.compute_dedupe_hash`: the first 32 hex characters of
    the SHA-256 of the raw URL — no normalization and no fallback. -/
def compute_dedupe_hash (l : ScrapedListing) : String :=
  (sha256_hex l.url).take 32

/-! ## The kimi unification engine (`UnificationEngine` in valora_autonomous.py) -/

/-- The `FieldChange` dataclass. -/
structure FieldChange where
  field_name : String
  old_value : PyVal
  new_value : PyVal
  change_type : String
  changed_at : Int
deriving DecidableEq

/-- One row of the `listings` table, restricted to the columns the kimi
    engine's INSERT/UPDATE statements write and its queries read.
    Field defaults are only a convenience for building test rows. -/
structure KimiRow where
  id : Nat := 0
  source_id : Nat := 0
  source_listing_id : Option String := none
  url : String := ""
  url_hash : String := ""
  fingerprint_hash : String := ""
  dedupe_hash : String := ""
  status : String := "active"
  price_type : String := "sale"
  price_amount : Option ℚ := none
  currency : String := "MXN"
  property_type : Option String := none
  area_construction_m2 : Option ℚ := none
  area_land_m2 : Option ℚ := none
  bedrooms : Option Int := none
  bathrooms : Option ℚ := none
  half_bathrooms : Option ℚ := none
  parking : Option Int := none
  floors : Option Int := none
  age_years : Option Int := none
  title : Option String := none
  description : Option String := none
  street : Option String := none
  colony : Option String := none
  municipality : Option String := none
  state : String := "Nuevo León"
  lat : Option ℚ := none
  lng : Option ℚ := none
  geo_precision : String := "unknown"
  images_json : String := "[]"
  contact_json : String := "\x7b\x7d"
  amenities_json : String := "[]"
  raw_json : String := "\x7b\x7d"
  source_first_seen_at : Int := 0
  source_last_seen_at : Int := 0
  seen_first_at : Int := 0
  seen_last_at : Int := 0
  created_at : Int := 0
  updated_at : Int := 0
deriving DecidableEq

/-- Row of `listing_price_history`. -/
structure PriceHistoryEntry where
  listing_id : Nat
  status : String
  price_amount : Option ℚ
  currency : String
  captured_at : Int
deriving DecidableEq

/-- Row of `listing_status_history`. -/
structure StatusHistoryEntry where
  listing_id : Nat
  old_status : Option String
  new_status : String
  changed_at : Int
deriving DecidableEq

/-- In-memory model of the MySQL state the kimi engine manipulates. -/
structure EngineState where
  listings : List KimiRow := []
  price_history : List PriceHistoryEntry := []
  status_history : List StatusHistoryEntry := []
  field_history : List (Nat × FieldChange) := []
  next_id : Nat := 1
deriving DecidableEq

/-- The `field_mapping` dictionary of `UnificationEngine._detect_changes`,
    in insertion order: (field name, category, new value, old value). -/
def field_mapping (existing : KimiRow) (new : ScrapedListing) :
    List (String × String × PyVal × PyVal) :=
  [("price_amount", "price", pyOfQ new.price_amount, pyOfQ existing.price_amount),
   ("status", "status", .str new.status, .str existing.status),
   ("title", "content", pyOfS new.title, pyOfS existing.title),
   ("description", "content", pyOfS new.description, pyOfS existing.description),
   ("bedrooms", "content", pyOfI new.bedrooms, pyOfI existing.bedrooms),
   ("bathrooms", "content", pyOfQ new.bathrooms, pyOfQ existing.bathrooms),
   ("area_construction_m2", "content", pyOfQ new.area_construction_m2,
    pyOfQ existing.area_construction_m2),
   ("colony", "location", pyOfS new.colony, pyOfS existing.colony),
   ("municipality", "location", pyOfS new.municipality, pyOfS existing.municipality),
   ("lat", "location", pyOfQ new.lat, pyOfQ existing.lat),
   ("lng", "location", pyOfQ new.lng, pyOfQ existing.lng),
   ("images_json", "metadata", .str (jsonDumpsList true new.images), .str existing.images_json)]

def mkFieldChange (now : Int) (e : String × String × PyVal × PyVal) : FieldChange :=
  ⟨e.1, e.2.2.2, e.2.2.1, e.2.1, now⟩

/-- Method `UnificationEngine._detect_changes`: one `FieldChange` per tracked
    field whose normalized old and new values differ. -/
def detect_changes (now : Int) (existing : KimiRow) (new : ScrapedListing) : List FieldChange :=
  (field_mapping existing new).filterMap fun e =>
    if normalize_for_compare e.2.2.2 ≠ normalize_for_compare e.2.2.1
    then some (mkFieldChange now e) else none

/-- Python truthiness of an optional float (`if listing.price_amount:`,
    `if listing.lat and listing.lng:`). -/
def qTruthy : Option ℚ → Bool
  | none => false
  | some q => q ≠ 0

/-- Method `UnificationEngine.upsert_listing`.  `now` stands for
    `CURRENT_TIMESTAMP` / `datetime.now()`. -/
def upsert_listing (now : Int) (source_id : Nat) (l : ScrapedListing)
    (st : EngineState) : (Bool × List FieldChange) × EngineState :=
  let dedupe_hash := compute_dedupe_hash l
  let fingerprint := compute_fingerprint l
  match st.listings.find? (fun r => r.dedupe_hash == dedupe_hash) with
  | some existing =>
    let changes := detect_changes now existing l
    let updated : KimiRow :=
      { existing with
        source_id := source_id
        source_listing_id := l.source_listing_id
        url := l.url
        status := l.status
        price_type := l.price_type
        price_amount := l.price_amount
        currency := l.currency
        property_type := l.property_type
        area_construction_m2 := l.area_construction_m2
        area_land_m2 := l.area_land_m2
        bedrooms := l.bedrooms
        bathrooms := l.bathrooms
        half_bathrooms := l.half_bathrooms
        parking := l.parking
        floors := l.floors
        age_years := l.age_years
        title := l.title
        description := l.description
        street := l.street
        colony := l.colony
        municipality := l.municipality
        state := l.state
        lat := l.lat
        lng := l.lng
        images_json := jsonDumpsList false l.images
        contact_json := l.contact_info
        amenities_json := jsonDumpsList false l.amenities
        raw_json := l.raw_data
        source_last_seen_at := l.scraped_at
        seen_last_at := now
        updated_at := now }
    let listings := st.listings.map (fun r => if r.id == existing.id then updated else r)
    let field_history := st.field_history ++ changes.map (fun c => (existing.id, c))
    let price_history :=
      if changes.any (fun c => c.field_name == "price_amount") then
        st.price_history ++ [⟨existing.id, l.status, l.price_amount, l.currency, now⟩]
      else st.price_history
    let status_history :=
      if existing.status ≠ l.status then
        st.status_history ++ [⟨existing.id, some existing.status, l.status, now⟩]
      else st.status_history
    ((false, changes),
     { st with listings := listings, field_history := field_history,
               price_history := price_history, status_history := status_history })
  | none =>
    let row : KimiRow :=
      { id := st.next_id
        source_id := source_id
        source_listing_id := l.source_listing_id
        url := l.url
        url_hash := l.url_hash
        fingerprint_hash := fingerprint
        dedupe_hash := dedupe_hash
        status := l.status
        price_type := l.price_type
        price_amount := l.price_amount
        currency := l.currency
        property_type := l.property_type
        area_construction_m2 := l.area_construction_m2
        area_land_m2 := l.area_land_m2
        bedrooms := l.bedrooms
        bathrooms := l.bathrooms
        half_bathrooms := l.half_bathrooms
        parking := l.parking
        floors := l.floors
        age_years := l.age_years
        title := l.title
        description := l.description
        street := l.street
        colony := l.colony
        municipality := l.municipality
        state := l.state
        lat := l.lat
        lng := l.lng
        geo_precision := if qTruthy l.lat && qTruthy l.lng then "exact" else "unknown"
        images_json := jsonDumpsList false l.images
        contact_json := l.contact_info
        amenities_json := jsonDumpsList false l.amenities
        raw_json := l.raw_data
        source_first_seen_at := l.scraped_at
        source_last_seen_at := l.scraped_at
        seen_first_at := now
        seen_last_at := now
        created_at := now
        updated_at := now }
    let price_history :=
      if qTruthy l.price_amount then
        st.price_history ++ [⟨st.next_id, l.status, l.price_amount, l.currency, now⟩]
      else st.price_history
    ((true, []),
     { st with listings := st.listings ++ [row], price_history := price_history,
               next_id := st.next_id + 1 })

/-- The row-level effect of the stale-deactivation UPDATE shared by
    `UnificationEngine.deactivate_stale_listings` and
    `MySQLMigrator.deactivate_stale_listings`:
    `SET status='inactive', updated_at=NOW() WHERE status='active' AND
    seen_last_at < DATE_SUB(NOW(), INTERVAL days DAY)`. -/
def deactivate_row (now days : Int) (r : KimiRow) : KimiRow :=
  if r.status = "active" ∧ r.seen_last_at < now - days * 86400
  then { r with status := "inactive", updated_at := now } else r

/-- Method `deactivate_stale_listings`: the UPDATE applied to every row, plus
    the affected-row count the cursor reports. -/
def deactivate_stale_listings (now days : Int) (st : EngineState) : Nat × EngineState :=
  (st.listings.countP
     (fun r => r.status == "active" && decide (r.seen_last_at < now - days * 86400)),
   { st with listings := st.listings.map (deactivate_row now days) })

/-! ## The MySQL migrator (`scrapping/unify_to_mysql.py`) -/

/-- The `Metrics` dataclass. -/
structure Metrics where
  read : Nat := 0
  inserted : Nat := 0
  updated : Nat := 0
  duplicates : Nat := 0
  skipped_price : Nat := 0
  stale_deactivated : Nat := 0
  warnings : Nat := 0
  errors : Nat := 0
deriving DecidableEq

/-- The `CanonicalListing` dataclass (floats as rationals, datetimes as
    integer seconds, JSON blobs as their serialized text). -/
structure CanonicalListing where
  source_code : String
  source_listing_id : Option String := none
  parse_version : String := "unify_v1"
  url : Option String := none
  url_normalized : Option String := none
  url_hash : Option String := none
  fingerprint_hash : String := ""
  dedupe_hash : String := ""
  status : String := "active"
  price_type : String := "sale"
  price_amount : Option ℚ := none
  currency : String := "MXN"
  maintenance_fee : Option ℚ := none
  property_type : Option String := none
  area_construction_m2 : Option ℚ := none
  area_land_m2 : Option ℚ := none
  bedrooms : Option Int := none
  bathrooms : Option ℚ := none
  half_bathrooms : Option ℚ := none
  parking : Option Int := none
  floors : Option Int := none
  age_years : Option Int := none
  title : Option String := none
  description : Option String := none
  street : Option String := none
  colony : Option String := none
  municipality : Option String := none
  state : Option String := none
  country : Option String := some "México"
  postal_code : Option String := none
  lat : Option ℚ := none
  lng : Option ℚ := none
  geo_precision : String := "unknown"
  images_json : Option String := none
  contact_json : Option String := none
  amenities_json : Option String := none
  details_json : Option String := none
  raw_json : Option String := none
  source_first_seen_at : Option Int := none
  source_last_seen_at : Option Int := none
deriving DecidableEq

/-- One row of the migrator's `listings` table: the dataclass columns
    plus the ids and the `seen_*`/audit timestamps the SQL maintains. -/
structure UnifyRow where
  id : Nat
  source_id : Nat
  listing : CanonicalListing
  seen_first_at : Int
  seen_last_at : Int
  created_at : Int
  updated_at : Int
deriving DecidableEq

/-- In-memory model of the migrator's MySQL state. -/
structure UnifyStore where
  rows : List UnifyRow := []
  price_history : List PriceHistoryEntry := []
  status_history : List StatusHistoryEntry := []
  next_id : Nat := 1
deriving DecidableEq

/-- Method `MySQLMigrator._upsert_listing`: SELECT by `dedupe_hash`; INSERT ...
    ON DUPLICATE KEY UPDATE (everything except `dedupe_hash`,
    `source_first_seen_at`, `seen_first_at`, `created_at`); seed both
    history tables on insert, append to them on change on update. -/
def unify_upsert_listing (now : Int) (source_id : Nat) (l : CanonicalListing)
    (st : UnifyStore) (metrics : Metrics) : UnifyStore × Metrics :=
  match st.rows.find? (fun r => r.listing.dedupe_hash == l.dedupe_hash) with
  | none =>
    let row : UnifyRow :=
      { id := st.next_id, source_id := source_id, listing := l,
        seen_first_at := now, seen_last_at := now, created_at := now, updated_at := now }
    ({ st with
       rows := st.rows ++ [row]
       price_history := st.price_history ++ [⟨st.next_id, l.status, l.price_amount, l.currency, now⟩]
       status_history := st.status_history ++ [⟨st.next_id, none, l.status, now⟩]
       next_id := st.next_id + 1 },
     { metrics with inserted := metrics.inserted + 1 })
  | some existing =>
    let updated : UnifyRow :=
      { existing with
        source_id := source_id
        listing := { l with source_first_seen_at := existing.listing.source_first_seen_at
                            dedupe_hash := existing.listing.dedupe_hash }
        seen_last_at := now
        updated_at := now }
    let price_history :=
      if existing.listing.price_amount ≠ l.price_amount ∨ existing.listing.status ≠ l.status then
        st.price_history ++ [⟨existing.id, l.status, l.price_amount, l.currency, now⟩]
      else st.price_history
    let status_history :=
      if existing.listing.status ≠ l.status then
        st.status_history ++ [⟨existing.id, some existing.listing.status, l.status, now⟩]
      else st.status_history
    ({ st with
       rows := st.rows.map (fun r => if r.id == existing.id then updated else r)
       price_history := price_history
       status_history := status_history },
     { metrics with updated := metrics.updated + 1, duplicates := metrics.duplicates + 1 })

/-! ## Price validation (Mejora 5) -/

def MIN_SALE_PRICE : ℚ := 100000
def MAX_SALE_PRICE : ℚ := 100000000
def MIN_PPU_M2 : ℚ := 3000
def MAX_PPU_M2 : ℚ := 80000

/-- The rejection reasons of `validate_listing_price`; each constructor
    stands for the corresponding formatted message, carrying the number
    the message interpolates. -/
inductive PriceReason where
  | belowMin (price : ℚ) : PriceReason
  | aboveMax (price : ℚ) : PriceReason
  | ppuBelowMin (ppu : ℚ) : PriceReason
  | ppuAboveMax (ppu : ℚ) : PriceReason
deriving DecidableEq

/-- The function `validate_listing_price` from `scrapping/unify_to_mysql.py`.  A total
    function — rejection is a returned flag, never an exception. -/
def validate_listing_price (price : Option ℚ) (area_construction_m2 : Option ℚ)
    (price_type : String) : Bool × Option PriceReason :=
  match price with
  | none => (true, none)
  | some p =>
    if price_type ≠ "sale" then (true, none)
    else if p < MIN_SALE_PRICE then (false, some (.belowMin p))
    else if p > MAX_SALE_PRICE then (false, some (.aboveMax p))
    else
      match area_construction_m2 with
      | none => (true, none)
      | some a =>
        if a ≠ 0 then
          if a > 0 then
            let ppu := p / a
            if ppu < MIN_PPU_M2 then (false, some (.ppuBelowMin ppu))
            else if ppu > MAX_PPU_M2 then (false, some (.ppuAboveMax ppu))
            else (true, none)
          else (true, none)
        else (true, none)

/-- The per-record price gate inside `MySQLMigrator.migrate_mapper`: an
    invalid price bumps `skipped_price` and skips the upsert (`continue`);
    a valid one lets the record through. -/
def migrate_price_gate (metrics : Metrics) (price area : Option ℚ)
    (price_type : String) : Metrics × Bool :=
  let v := validate_listing_price price area price_type
  if v.1 then (metrics, true)
  else ({ metrics with skipped_price := metrics.skipped_price + 1 }, false)

/-! ## Status normalization -/

/-- The function `normalize_status` from `scrapping/unify_to_mysql.py`. -/
def normalize_status (raw_status : Option String) : String :=
  let text := strLower (pyStrip (raw_status.getD ""))
  if ["vend", "sold"].any (fun w => containsSub text w) then "sold"
  else if ["inactiv", "baja", "no disponible"].any (fun w => containsSub text w) then "inactive"
  else if text ≠ "" then "active"
  else "active"

/-! ## Checkpoint & run loop (`ValoraAutonomous.run`) -/

/-- The `ExecutionCheckpoint` dataclass (`failed_sources` dict as an
    association list). -/
structure ExecutionCheckpoint where
  execution_id : String
  started_at : String
  completed_sources : List String := []
  failed_sources : List (String × String) := []
  current_source : Option String := none
  current_batch : Nat := 0
  total_processed : Nat := 0
deriving DecidableEq

/-- Method `ExecutionCheckpoint.is_source_completed`. -/
def is_source_completed (cp : ExecutionCheckpoint) (source : String) : Bool :=
  cp.completed_sources.contains source

/-- Python dict assignment `d[k] = v` on the association-list model. -/
def dictSet (m : List (String × String)) (k v : String) : List (String × String) :=
  if m.any (fun p => p.1 == k) then m.map (fun p => if p.1 == k then (k, v) else p)
  else m ++ [(k, v)]

/-- The per-adapter loop of `ValoraAutonomous.run` (lines 1083-1110):
    under `resume`, completed sources are skipped without invoking
    `_process_adapter` (and hence without scraping); otherwise the source
    is processed, the checkpoint recording success or failure.  `outcome`
    abstracts `_process_adapter`: `none` is success, `some e` the string
    of the exception, which in strict (`no-resume`) mode aborts the loop.
    Returns the list of sources actually processed and the checkpoint. -/
def run_loop (resume : Bool) (outcome : String → Option String) :
    List String → ExecutionCheckpoint → List String × ExecutionCheckpoint
  | [], cp => ([], cp)
  | code :: rest, cp =>
    if resume && is_source_completed cp code then
      run_loop resume outcome rest cp
    else
      let cp1 := { cp with current_source := some code }
      match outcome code with
      | none =>
        let cp2 := { cp1 with completed_sources := cp1.completed_sources ++ [code] }
        let r := run_loop resume outcome rest cp2
        (code :: r.1, r.2)
      | some err =>
        let cp2 := { cp1 with failed_sources := dictSet cp1.failed_sources code err }
        if resume then
          let r := run_loop resume outcome rest cp2
          (code :: r.1, r.2)
        else ([code], cp2)

/-! ## The money parser (`parse_price` in valoranl_scraper.py) -/

/-- First match of the regex `\d+[.,]?\d*` starting at a digit position. -/
def matchNumRun (l : List Char) : List Char :=
  let d1 := l.takeWhile Char.isDigit
  match l.dropWhile Char.isDigit with
  | s :: r2 => if s = '.' ∨ s = ',' then d1 ++ s :: r2.takeWhile Char.isDigit else d1
  | [] => d1

/-- Python `re.search(r"(\d+[.,]?\d*)", t)`: leftmost match. -/
def firstNumRun : List Char → Option (List Char)
  | [] => none
  | c :: rest => if c.isDigit then some (matchNumRun (c :: rest)) else firstNumRun rest

def natFromDigitsN (l : List Char) : ℕ :=
  l.foldl (fun acc c => acc * 10 + (c.toNat - 48)) 0

def natFromDigits (l : List Char) : ℚ := (natFromDigitsN l : ℚ)

/-- Exact multiplication on ℚ assembled with `mkRat`; `qmul_eq_mul`
    below shows it is ordinary multiplication. -/
def qmul (a b : ℚ) : ℚ := mkRat (a.num * b.num) (a.den * b.den)

theorem qmul_eq_mul (a b : ℚ) : qmul a b = a * b := by
  rw [qmul, Rat.mkRat_eq_div]
  push_cast
  conv_rhs => rw [← Rat.num_div_den a, ← Rat.num_div_den b]
  rw [div_mul_div_comm]

/-- The decimal `ip.fp` as a rational, assembled with `mkRat`; `decimal_eq_add_div`
    below shows it is `ip + fp/10^k`. -/
def decimalValue (ipN fpN k : ℕ) : ℚ := mkRat ((ipN * 10 ^ k + fpN : ℕ) : ℤ) (10 ^ k)

theorem decimal_eq_add_div (ipN fpN k : ℕ) :
    decimalValue ipN fpN k = (ipN : ℚ) + (fpN : ℚ) / (10 ^ k : ℕ) := by
  rw [decimalValue, Rat.mkRat_eq_div]
  push_cast
  have h10 : ((10 : ℚ) ^ k) ≠ 0 := by positivity
  field_simp

/-- Python `float()` on a cleaned `digits[./digits]` literal. -/
def floatOfCleaned (l : List Char) : Option ℚ :=
  match splitAtFirst '.' l with
  | none => if l ≠ [] ∧ l.all Char.isDigit then some (natFromDigits l) else none
  | some (ip, fp) =>
    if (ip ≠ [] ∨ fp ≠ []) ∧ ip.all Char.isDigit ∧ fp.all Char.isDigit then
      some (decimalValue (natFromDigitsN ip) (natFromDigitsN fp) fp.length)
    else none

/-- The function `parse_price` from `valoranl_scraper.py`: placeholder text containing
    CONSULT yields no price; an `MDP` (millions) suffix scales the first
    decimal run by 1,000,000; otherwise all digit runs are concatenated
    (`"".join(re.findall(r"\d+", t))`) and read as one number. -/
def parse_price (text : String) : Option ℚ × Option String :=
  if text = "" then (none, none)
  else
    let t := pyStrip (strUpper text)
    if containsSub t "CONSULT" then (none, none)
    else
      let currency := if containsSub t "USD" ∨ containsSub t "DÓLAR" ∨ containsSub t "DOLARES"
                      then "USD" else "MXN"
      let mdpResult : Option (Option ℚ × Option String) :=
        if containsSub t "MDP" then
          match firstNumRun t.data with
          | some run =>
            match floatOfCleaned (run.filter (fun c => c ≠ ',')) with
            | some v => some (some (qmul v 1000000), some currency)
            | none => some (none, some currency)
          | none => none
        else none
      match mdpResult with
      | some r => r
      | none =>
        let ds := t.data.filter Char.isDigit
        if ds = [] then (none, none)
        else (some (natFromDigits ds), some currency)

/-- Modelled from the spec (C9): "strips currency glyphs and separators
    and extracts the first numeric run" — the value of the first decimal
    number appearing in the text.  Stated only to be compared with
    `parse_price`, which the code defines differently. -/
def parse_money_spec_first_run (text : String) : Option ℚ :=
  (firstNumRun (pyStrip (strUpper text)).data).bind
    (fun run => floatOfCleaned (run.filter (fun c => c ≠ ',')))


/-! ## Claim C6: price validation -/

/-- C6: for every sale-priced record, `validate_listing_price` rejects
    exactly when the price lies outside the absolute bound
    100,000–100,000,000, or, when a positive construction area is known,
    when price/area lies outside 3,000–80,000 per m²; every rejection
    carries a reason; $50,000 (sale) is rejected, $2,500,000 with 200 m²
    accepted; rejection raises nothing — it makes the migrate loop skip
    the record and count it in `skipped_price`. -/
theorem C6_theorem :
    (∀ (p : ℚ) (area : Option ℚ),
       (validate_listing_price (some p) area "sale").1 = false ↔
         (p < MIN_SALE_PRICE ∨ MAX_SALE_PRICE < p ∨
          ∃ a, area = some a ∧ 0 < a ∧ (p / a < MIN_PPU_M2 ∨ MAX_PPU_M2 < p / a)))
  ∧ (∀ (price area : Option ℚ) (t : String),
       (validate_listing_price price area t).1 = false →
         (validate_listing_price price area t).2 ≠ none)
  ∧ (validate_listing_price (some 50000) none "sale").1 = false
  ∧ validate_listing_price (some 2500000) (some 200) "sale" = (true, none)
  ∧ (∀ (m : Metrics) (price area : Option ℚ) (t : String),
       (validate_listing_price price area t).1 = false →
         migrate_price_gate m price area t =
           ({ m with skipped_price := m.skipped_price + 1 }, false)) := by
  refine ⟨?_, ?_, by decide,
    by norm_num [validate_listing_price, MIN_SALE_PRICE, MAX_SALE_PRICE, MIN_PPU_M2, MAX_PPU_M2],
    ?_⟩
  · intro p area
    cases area with
    | none =>
      by_cases h1 : p < MIN_SALE_PRICE <;> by_cases h2 : MAX_SALE_PRICE < p <;>
        simp [validate_listing_price, h1, h2, gt_iff_lt]
    | some a =>
      by_cases h1 : p < MIN_SALE_PRICE
      · simp [validate_listing_price, h1]
      · by_cases h2 : MAX_SALE_PRICE < p
        · simp [validate_listing_price, h1, h2, gt_iff_lt]
        · by_cases ha : a = 0
          · simp [validate_listing_price, h1, h2, gt_iff_lt, ha]
          · by_cases hpos : 0 < a
            · by_cases h3 : p / a < MIN_PPU_M2 <;> by_cases h4 : MAX_PPU_M2 < p / a <;>
                simp [validate_listing_price, h1, h2, ha, hpos, h3, h4, gt_iff_lt]
            · simp [validate_listing_price, h1, h2, ha, hpos, gt_iff_lt]
  · intro price area t h
    cases price with
    | none => simp [validate_listing_price] at h
    | some p =>
      cases area with
      | none =>
        simp only [validate_listing_price] at h ⊢
        split_ifs at h ⊢ <;> simp_all
      | some a =>
        simp only [validate_listing_price] at h ⊢
        split_ifs at h ⊢ <;> simp_all
  · intro m price area t h
    simp [migrate_price_gate, h]

/-- C6 witness: the theorem's quantified parts applied at concrete inputs. -/
theorem C6_witness :
    ((validate_listing_price (some 50000) none "sale").1 = false ↔
      ((50000 : ℚ) < MIN_SALE_PRICE ∨ MAX_SALE_PRICE < 50000 ∨
       ∃ a, (none : Option ℚ) = some a ∧ 0 < a ∧
         ((50000 : ℚ) / a < MIN_PPU_M2 ∨ MAX_PPU_M2 < (50000 : ℚ) / a)))
  ∧ (validate_listing_price (some 50000) none "sale").2 ≠ none
  ∧ migrate_price_gate {} (some 50000) none "sale" = ({ skipped_price := 1 }, false) :=
  ⟨C6_theorem.1 50000 none,
   C6_theorem.2.1 (some 50000) none "sale" (by decide),
   C6_theorem.2.2.2.2 {} (some 50000) none "sale" (by decide)⟩

/-! ## Claim C7: checkpoint resume -/

theorem is_source_completed_iff (cp : ExecutionCheckpoint) (c : String) :
    is_source_completed cp c = true ↔ c ∈ cp.completed_sources := by
  simp [is_source_completed, List.contains, List.elem_iff]

/-- Under `resume`, a source recorded as completed in the checkpoint is
    never processed (its scrape is not invoked). -/
theorem run_loop_completed_skipped (outcome : String → Option String) :
    ∀ (adapters : List String) (cp : ExecutionCheckpoint) (c : String),
      c ∈ cp.completed_sources → c ∉ (run_loop true outcome adapters cp).1 := by
  intro adapters
  induction adapters with
  | nil => intro cp c _ h; simp [run_loop] at h
  | cons a rest ih =>
    intro cp c hc
    by_cases hskip : is_source_completed cp a
    · simpa [run_loop, hskip] using ih cp c hc
    · have hca : c ≠ a := by
        intro h
        subst h
        exact hskip ((is_source_completed_iff cp c).mpr hc)
      cases hout : outcome a with
      | none =>
        simp only [run_loop, hskip, Bool.true_and, Bool.false_eq_true, if_false, hout]
        intro hmem
        rcases List.mem_cons.mp hmem with h | h
        · exact hca h
        · refine ih _ c ?_ h
          exact List.mem_append_left _ hc
      | some err =>
        simp only [run_loop, hskip, Bool.true_and, Bool.false_eq_true, if_false, hout, if_pos]
        intro hmem
        rcases List.mem_cons.mp hmem with h | h
        · exact hca h
        · refine ih _ c ?_ h
          exact hc

/-- Under `resume`, every discovered source not recorded as completed is
    processed (in particular every failed source is retried). -/
theorem run_loop_not_completed_processed (outcome : String → Option String) :
    ∀ (adapters : List String) (cp : ExecutionCheckpoint) (c : String),
      adapters.Nodup → c ∈ adapters → c ∉ cp.completed_sources →
      c ∈ (run_loop true outcome adapters cp).1 := by
  intro adapters
  induction adapters with
  | nil => intro cp c _ h _; simp at h
  | cons a rest ih =>
    intro cp c hnd hmem hnc
    rcases List.mem_cons.mp hmem with rfl | hmemr
    · have hskip : ¬ is_source_completed cp c = true := by
        intro h
        exact hnc ((is_source_completed_iff cp c).mp h)
      cases hout : outcome c with
      | none => simp [run_loop, hskip, hout]
      | some err => simp [run_loop, hskip, hout]
    · have hca : c ≠ a := fun h => (List.nodup_cons.mp hnd).1 (h ▸ hmemr)
      by_cases hskip : is_source_completed cp a
      · simpa [run_loop, hskip] using
          ih cp c (List.nodup_cons.mp hnd).2 hmemr hnc
      · cases hout : outcome a with
        | none =>
          simp only [run_loop, hskip, Bool.true_and, Bool.false_eq_true, if_false, hout]
          refine List.mem_cons_of_mem _ (ih _ c (List.nodup_cons.mp hnd).2 hmemr ?_)
          intro hmem2
          rcases List.mem_append.mp hmem2 with h | h
          · exact hnc h
          · simp at h
            exact hca h
        | some err =>
          simp only [run_loop, hskip, Bool.true_and, Bool.false_eq_true, if_false, hout, if_pos]
          exact List.mem_cons_of_mem _ (ih _ c (List.nodup_cons.mp hnd).2 hmemr hnc)

/-- The checkpoint of the claim's scenario: A completed, B failed with a
    timeout. -/
def cpC7 : ExecutionCheckpoint :=
  { execution_id := "e1", started_at := "t0",
    completed_sources := ["A"], failed_sources := [("B", "timeout")] }

/-- C7: a resumed run skips every source in `completed_sources` entirely
    and processes every available source not in it; with
    `completed_sources=[A]`, `failed_sources=(B, timeout)` and adapters
    A and B, exactly B is retried. -/
theorem C7_theorem :
    (∀ (outcome : String → Option String) (adapters : List String)
       (cp : ExecutionCheckpoint) (c : String),
       c ∈ cp.completed_sources → c ∉ (run_loop true outcome adapters cp).1)
  ∧ (∀ (outcome : String → Option String) (adapters : List String)
       (cp : ExecutionCheckpoint) (c : String),
       adapters.Nodup → c ∈ adapters → c ∉ cp.completed_sources →
       c ∈ (run_loop true outcome adapters cp).1)
  ∧ (∀ outcome : String → Option String,
       (run_loop true outcome ["A", "B"] cpC7).1 = ["B"]) := by
  refine ⟨fun o => run_loop_completed_skipped o, fun o => run_loop_not_completed_processed o, ?_⟩
  intro outcome
  cases hout : outcome "B" with
  | none => simp [run_loop, cpC7, is_source_completed, hout]
  | some e => simp [run_loop, cpC7, is_source_completed, hout]

/-- C7 witness: the theorem applied to the concrete scenario. -/
theorem C7_witness :
    "A" ∉ (run_loop true (fun _ => some "timeout") ["A", "B"] cpC7).1
  ∧ "B" ∈ (run_loop true (fun _ => some "timeout") ["A", "B"] cpC7).1 :=
  ⟨C7_theorem.1 (fun _ => some "timeout") ["A", "B"] cpC7 "A" (by decide),
   C7_theorem.2.1 (fun _ => some "timeout") ["A", "B"] cpC7 "B" (by decide) (by decide) (by decide)⟩

/-! ## Claim C8: stale deactivation -/

/-- A sweep over a store with no active-and-stale row changes nothing
    and reports zero. -/
theorem deactivate_no_match (now days : Int) (st : EngineState)
    (hno : ∀ r ∈ st.listings, ¬ (r.status = "active" ∧ r.seen_last_at < now - days * 86400)) :
    deactivate_stale_listings now days st = (0, st) := by
  have hmapid : st.listings.map (deactivate_row now days) = st.listings := by
    conv_rhs => rw [← List.map_id st.listings]
    refine List.map_congr_left ?_
    intro r hr
    simp [deactivate_row, hno r hr]
  have hcount : st.listings.countP
      (fun r => r.status == "active" && decide (r.seen_last_at < now - days * 86400)) = 0 := by
    rw [List.countP_eq_zero]
    intro r hr
    simp only [Bool.and_eq_true, beq_iff_eq, decide_eq_true_eq]
    exact fun hcon => hno r hr hcon
  simp [deactivate_stale_listings, hmapid, hcount]

/-- C8: the stale sweep deactivates exactly the active listings unseen
    for more than `days` days, never touches a non-active listing (so
    never reactivates), reports the number of rows it changed, and an
    immediate second sweep is a no-op with count 0; a listing seen 45
    days ago (threshold 30) goes inactive, one seen 10 days ago stays. -/
theorem C8_theorem :
    (∀ (now days : Int) (r : KimiRow), r.status ≠ "active" → deactivate_row now days r = r)
  ∧ (∀ (now days : Int) (r : KimiRow), r.status = "active" →
       r.seen_last_at < now - days * 86400 → (deactivate_row now days r).status = "inactive")
  ∧ (∀ (now days : Int) (r : KimiRow), r.status = "active" →
       ¬ r.seen_last_at < now - days * 86400 → deactivate_row now days r = r)
  ∧ (∀ (now days : Int) (st : EngineState),
       (deactivate_stale_listings now days st).1 =
         st.listings.countP (fun r => decide (deactivate_row now days r ≠ r)))
  ∧ (∀ (now days : Int) (st : EngineState),
       deactivate_stale_listings now days (deactivate_stale_listings now days st).2 =
         (0, (deactivate_stale_listings now days st).2))
  ∧ (deactivate_row 0 30 { status := "active", seen_last_at := -45 * 86400 }).status = "inactive"
  ∧ deactivate_row 0 30 { status := "active", seen_last_at := -10 * 86400 } =
      { status := "active", seen_last_at := -10 * 86400 } := by
  have hfix : ∀ (now days : Int) (r : KimiRow),
      ¬ ((deactivate_row now days r).status = "active" ∧
         (deactivate_row now days r).seen_last_at < now - days * 86400) := by
    intro now days r
    by_cases h : r.status = "active" ∧ r.seen_last_at < now - days * 86400
    · simp [deactivate_row, h]
    · simp only [deactivate_row, if_neg h]; exact h
  refine ⟨?_, ?_, ?_, ?_, ?_, by decide, by decide⟩
  · intro now days r h
    simp [deactivate_row, h]
  · intro now days r h1 h2
    simp [deactivate_row, h1, h2]
  · intro now days r h1 h2
    simp [deactivate_row, h2]
  · intro now days st
    simp only [deactivate_stale_listings]
    refine List.countP_congr ?_
    intro r _
    by_cases h : r.status = "active" ∧ r.seen_last_at < now - days * 86400
    · have hne : deactivate_row now days r ≠ r := by
        intro he
        have hst : r.status = "inactive" := by
          rw [← he]
          simp [deactivate_row, h]
        rw [h.1] at hst
        exact absurd hst (by decide)
      simp [h.1, h.2, hne]
    · have heq : deactivate_row now days r = r := by simp [deactivate_row, h]
      by_cases h1 : r.status = "active"
      · have h2 : ¬ r.seen_last_at < now - days * 86400 := fun hx => h ⟨h1, hx⟩
        simp [h1, h2, heq]
      · simp [h1, heq]
  · intro now days st
    refine deactivate_no_match now days _ ?_
    intro r hr
    simp only [deactivate_stale_listings] at hr
    rcases List.mem_map.mp hr with ⟨r0, _, rfl⟩
    exact hfix now days r0

/-- C8 witness: the quantified parts applied at a concrete store. -/
theorem C8_witness :
    deactivate_row 0 30 { status := "sold", seen_last_at := -45 * 86400 } =
      { status := "sold", seen_last_at := -45 * 86400 }
  ∧ (deactivate_row 0 30 { status := "active", seen_last_at := -45 * 86400 }).status = "inactive"
  ∧ (deactivate_stale_listings 0 30
       { listings := [{ status := "active", seen_last_at := -45 * 86400 }] }).1 =
      [({ status := "active", seen_last_at := -45 * 86400 } : KimiRow)].countP
        (fun r => decide (deactivate_row 0 30 r ≠ r)) :=
  ⟨C8_theorem.1 0 30 _ (by decide),
   C8_theorem.2.1 0 30 _ (by decide) (by decide),
   C8_theorem.2.2.2.1 0 30 { listings := [{ status := "active", seen_last_at := -45 * 86400 }] }⟩

/-! ## Claim C10: status normalization -/

/-- C10: `normalize_status` is total with range inside
    (sold | inactive | active) — the canonical value `unknown` is never
    produced; "vend"/"sold" texts map to sold with priority over the
    inactive keywords; missing, empty or whitespace-only input defaults
    to active. -/
theorem C10_theorem :
    (∀ raw : Option String,
       (normalize_status raw = "sold" ∨ normalize_status raw = "inactive" ∨
        normalize_status raw = "active") ∧ normalize_status raw ≠ "unknown")
  ∧ (∀ raw : Option String,
       (containsSub (strLower (pyStrip (raw.getD ""))) "vend" = true ∨
        containsSub (strLower (pyStrip (raw.getD ""))) "sold" = true) →
       normalize_status raw = "sold")
  ∧ (∀ raw : Option String, pyStrip (raw.getD "") = "" → normalize_status raw = "active")
  ∧ normalize_status none = "active" := by
  refine ⟨?_, ?_, ?_, by decide⟩
  · intro raw
    constructor
    · simp only [normalize_status]
      split_ifs <;> simp
    · simp only [normalize_status]
      split_ifs <;> simp
  · intro raw h
    have : (["vend", "sold"].any
        (fun w => containsSub (strLower (pyStrip (raw.getD ""))) w)) = true := by
      simp only [List.any_cons, List.any_nil, Bool.or_false, Bool.or_eq_true]
      tauto
    simp [normalize_status, this]
  · intro raw h
    simp only [normalize_status, h]
    decide

/-- C10 witness: concrete applications of each quantified part. -/
theorem C10_witness :
    ((normalize_status (some "Vendida") = "sold" ∨
      normalize_status (some "Vendida") = "inactive" ∨
      normalize_status (some "Vendida") = "active") ∧
     normalize_status (some "Vendida") ≠ "unknown")
  ∧ normalize_status (some "Vendida dada de baja") = "sold"
  ∧ normalize_status (some "   ") = "active" :=
  ⟨C10_theorem.1 (some "Vendida"),
   C10_theorem.2.1 (some "Vendida dada de baja") (by decide),
   C10_theorem.2.2.1 (some "   ") (by decide)⟩

/-! ## Claim C1: URL normalization & dedup invariant -/

/-- C1 counterexample: `normalize_url` keeps the query string (only the
    fragment is dropped), so the spec's pair normalizes to two different
    strings and two different SHA-256 url_hashes. -/
theorem C1_counterexample :
    normalize_url (some "https://X.com/a/?b=1&c=2") = some "https://x.com/a?b=1&c=2"
  ∧ normalize_url (some "https://x.com/a?c=2&b=1/") = some "https://x.com/a?c=2&b=1/"
  ∧ normalize_url (some "https://X.com/a/?b=1&c=2") ≠ normalize_url (some "https://x.com/a?c=2&b=1/")
  ∧ sha256 (normalize_url (some "https://X.com/a/?b=1&c=2")) ≠
      sha256 (normalize_url (some "https://x.com/a?c=2&b=1/")) :=
  ⟨by decide, by decide, by decide, by decide⟩

/-- C1 (amended): two URLs whose splits agree on lower-cased scheme and
    netloc, on the slash-collapsed trailing-slash-stripped path, and on
    the query *verbatim*, normalize to the same string and hence the same
    SHA-256 url_hash.  Query-parameter order is **not** quotiented: the
    query survives normalization unchanged. -/
theorem C1_theorem (s1 s2 : String)
    (h1 : pyStrip s1 ≠ "") (h2 : pyStrip s2 ≠ "")
    (hsch : strLower (urlsplit (pyStrip s1)).scheme = strLower (urlsplit (pyStrip s2)).scheme)
    (hnet : strLower (urlsplit (pyStrip s1)).netloc = strLower (urlsplit (pyStrip s2)).netloc)
    (hpath : rstripSlashes (collapseSlashes (urlsplit (pyStrip s1)).path) =
             rstripSlashes (collapseSlashes (urlsplit (pyStrip s2)).path))
    (hq : (urlsplit (pyStrip s1)).query = (urlsplit (pyStrip s2)).query) :
    normalize_url (some s1) = normalize_url (some s2) ∧
    sha256 (normalize_url (some s1)) = sha256 (normalize_url (some s2)) := by
  have hs1 : s1 ≠ "" := by
    intro hz
    apply h1
    rw [hz]
    rfl
  have hs2 : s2 ≠ "" := by
    intro hz
    apply h2
    rw [hz]
    rfl
  have main : normalize_url (some s1) = normalize_url (some s2) := by
    simp only [normalize_url, if_neg hs1, if_neg hs2, if_neg h1, if_neg h2]
    rw [hsch, hnet, hpath, hq]
  exact ⟨main, by rw [main]⟩

/-- C1 witness: a concrete case-and-slash variant pair with equal query. -/
theorem C1_witness :
    normalize_url (some "HTTPS://Example.com//x/") = normalize_url (some "https://example.com/x")
  ∧ sha256 (normalize_url (some "HTTPS://Example.com//x/")) =
      sha256 (normalize_url (some "https://example.com/x")) :=
  C1_theorem "HTTPS://Example.com//x/" "https://example.com/x"
    (by decide) (by decide) (by decide) (by decide) (by decide) (by decide)

/-! ## Claim C2: dedupe hash selection -/

/-- A kimi listing carrying no stable per-listing URL (the dataclass
    default `row.get("url", "")`). -/
def kimiNoUrl : ScrapedListing :=
  { source_code := "casas365", source_listing_id := none, url := "", url_hash := "" }

/-- C2 counterexample: in the kimi engine, a record with no URL still
    gets `dedupe_hash = sha256("")[:32]`, which differs from its fallback
    fingerprint — the fingerprint is never used as the dedupe key. -/
theorem C2_counterexample :
    kimiNoUrl.url = "" ∧ compute_dedupe_hash kimiNoUrl ≠ compute_fingerprint kimiNoUrl :=
  ⟨rfl, by decide⟩

/-- C2 (amended): in the unify_to_mysql mappers, `dedupe_hash` is the
    SHA-256 of the normalized URL when normalization yields a nonempty
    string and the fallback fingerprint otherwise; in the kimi engine,
    `dedupe_hash` is always the first 32 hex chars of the SHA-256 of the
    raw URL and depends on nothing but the URL. -/
theorem C2_theorem :
    (∀ (url muni col : Option String) (area price : Option ℚ) (beds : Option Int),
       mapper_dedupe_hash url muni col area price beds =
         match normalize_url url with
         | none => build_fingerprint muni col area price beds
         | some u =>
           if u = "" then build_fingerprint muni col area price beds else sha256_hex u)
  ∧ (∀ l1 l2 : ScrapedListing, l1.url = l2.url →
       compute_dedupe_hash l1 = compute_dedupe_hash l2)
  ∧ (∀ l : ScrapedListing, compute_dedupe_hash l = (sha256_hex l.url).take 32) := by
  refine ⟨?_, ?_, fun l => rfl⟩
  · intro url muni col area price beds
    cases h : normalize_url url with
    | none => simp [mapper_dedupe_hash, sha256, h]
    | some u =>
      by_cases hu : u = ""
      · simp [mapper_dedupe_hash, sha256, h, hu]
      · simp [mapper_dedupe_hash, sha256, h, hu]
  · intro l1 l2 h
    simp [compute_dedupe_hash, h]

/-- C2 witness: two kimi listings sharing a URL but with different
    fingerprint fields get the same dedupe hash. -/
theorem C2_witness :
    compute_dedupe_hash
      { source_code := "a", source_listing_id := none, url := "https://x.com/1",
        url_hash := "", municipality := some "Monterrey" } =
    compute_dedupe_hash
      { source_code := "b", source_listing_id := none, url := "https://x.com/1",
        url_hash := "", municipality := some "Guadalupe", price_amount := some 5 } :=
  C2_theorem.2.1 _ _ rfl

/-! ## Claim C5: insert path seeding -/

/-- C5 counterexample: the kimi insert branch (price absent) seeds no
    price-history row and never seeds a status-history row, against the
    claimed exactly-one-of-each. -/
theorem C5_counterexample :
    (upsert_listing 100 1 kimiNoUrl {}).1.1 = true
  ∧ (upsert_listing 100 1 kimiNoUrl {}).2.status_history = []
  ∧ (upsert_listing 100 1 kimiNoUrl {}).2.price_history = [] :=
  ⟨by decide, by decide, by decide⟩

/-- C5 (amended): on a dedupe-hash miss, the MySQL migrator inserts,
    bumps `inserted`, and seeds exactly one price-history entry with the
    record's initial price plus exactly one `null → status` status-history
    entry; the kimi engine inserts and reports `inserted=true` with no
    changes, but seeds the price history only when the price is present
    and nonzero and never seeds the status history. -/
theorem C5_theorem :
    (∀ (now : Int) (sid : Nat) (cl : CanonicalListing) (st : UnifyStore) (m : Metrics),
       st.rows.find? (fun r => r.listing.dedupe_hash == cl.dedupe_hash) = none →
       (unify_upsert_listing now sid cl st m).2.inserted = m.inserted + 1 ∧
       (unify_upsert_listing now sid cl st m).1.price_history =
         st.price_history ++ [⟨st.next_id, cl.status, cl.price_amount, cl.currency, now⟩] ∧
       (unify_upsert_listing now sid cl st m).1.status_history =
         st.status_history ++ [⟨st.next_id, none, cl.status, now⟩] ∧
       (unify_upsert_listing now sid cl st m).1.rows.length = st.rows.length + 1)
  ∧ (∀ (now : Int) (sid : Nat) (l : ScrapedListing) (st : EngineState),
       st.listings.find? (fun r => r.dedupe_hash == compute_dedupe_hash l) = none →
       (upsert_listing now sid l st).1.1 = true ∧
       (upsert_listing now sid l st).1.2 = [] ∧
       (upsert_listing now sid l st).2.status_history = st.status_history ∧
       (upsert_listing now sid l st).2.price_history =
         st.price_history ++
           (if qTruthy l.price_amount
            then [⟨st.next_id, l.status, l.price_amount, l.currency, now⟩] else []) ∧
       (upsert_listing now sid l st).2.listings.length = st.listings.length + 1) := by
  constructor
  · intro now sid cl st m h
    refine ⟨?_, ?_, ?_, ?_⟩ <;> simp [unify_upsert_listing, h]
  · intro now sid l st h
    refine ⟨?_, ?_, ?_, ?_, ?_⟩
    · simp [upsert_listing, h]
    · simp [upsert_listing, h]
    · simp [upsert_listing, h]
    · by_cases hq : qTruthy l.price_amount <;> simp [upsert_listing, h, hq]
    · simp [upsert_listing, h]

/-- C5 witness: both insert branches exercised on empty stores. -/
theorem C5_witness :
    (unify_upsert_listing 50 1 { source_code := "casas365", dedupe_hash := "d1" } {} {}).2.inserted
      = ({} : Metrics).inserted + 1
  ∧ (upsert_listing 60 2 kimiNoUrl {}).2.status_history = ({} : EngineState).status_history :=
  ⟨(C5_theorem.1 50 1 { source_code := "casas365", dedupe_hash := "d1" } {} {} (by decide)).1,
   (C5_theorem.2 60 2 kimiNoUrl {} (by decide)).2.2.1⟩

/-! ## Claim C9: the money parser -/

/-- C9 counterexample: `parse_price` concatenates **all** digit runs
    (dropping the decimal point), so `"$ 2.5"` parses to 25, not to the
    value 2.5 of its first numeric run. -/
theorem C9_counterexample :
    parse_price "$ 2.5" = (some 25, some "MXN")
  ∧ parse_money_spec_first_run "$ 2.5" = some (mkRat 5 2)
  ∧ (25 : ℚ) ≠ mkRat 5 2 :=
  ⟨by decide, by decide, by decide⟩

/-- C9 (amended): placeholder text containing CONSULT parses to null;
    an MDP (millions) suffix scales the first decimal run by 1,000,000
    ("2.5 MDP" → 2,500,000); otherwise the parser concatenates all digit
    runs of the text — not the first numeric run — and reads them as one
    number. -/
theorem C9_theorem :
    (∀ t : String, t ≠ "" → containsSub (pyStrip (strUpper t)) "CONSULT" = true →
       parse_price t = (none, none))
  ∧ parse_price "Precio a consultar" = (none, none)
  ∧ parse_price "2.5 MDP" = (some 2500000, some "MXN")
  ∧ (∀ t : String, t ≠ "" →
       containsSub (pyStrip (strUpper t)) "CONSULT" = false →
       containsSub (pyStrip (strUpper t)) "MDP" = false →
       parse_price t =
         (if (pyStrip (strUpper t)).data.filter Char.isDigit = [] then (none, none)
          else (some (natFromDigits ((pyStrip (strUpper t)).data.filter Char.isDigit)),
                some (if containsSub (pyStrip (strUpper t)) "USD" ∨
                         containsSub (pyStrip (strUpper t)) "DÓLAR" ∨
                         containsSub (pyStrip (strUpper t)) "DOLARES"
                      then "USD" else "MXN")))) := by
  refine ⟨?_, by decide, by decide, ?_⟩
  · intro t ht hc
    simp [parse_price, ht, hc]
  · intro t ht hc hm
    simp [parse_price, ht, hc, hm]

/-- C9 witness: the CONSULT rule and the digit-concatenation rule at
    concrete inputs. -/
theorem C9_witness :
    parse_price "A consultar" = (none, none)
  ∧ parse_price "$ 1,234" =
      (if (pyStrip (strUpper "$ 1,234")).data.filter Char.isDigit = [] then (none, none)
       else (some (natFromDigits ((pyStrip (strUpper "$ 1,234")).data.filter Char.isDigit)),
             some (if containsSub (pyStrip (strUpper "$ 1,234")) "USD" ∨
                      containsSub (pyStrip (strUpper "$ 1,234")) "DÓLAR" ∨
                      containsSub (pyStrip (strUpper "$ 1,234")) "DOLARES"
                   then "USD" else "MXN"))) :=
  ⟨C9_theorem.1 "A consultar" (by decide) (by decide),
   C9_theorem.2.2.2 "$ 1,234" (by decide) (by decide) (by decide)⟩

/-! ## Claims C3 & C4: upsert idempotence and change-history completeness -/

/-- The category assigned to each tracked field by `_detect_changes`. -/
def tracked_categories : List (String × String) :=
  [("price_amount", "price"), ("status", "status"), ("title", "content"),
   ("description", "content"), ("bedrooms", "content"), ("bathrooms", "content"),
   ("area_construction_m2", "content"), ("colony", "location"), ("municipality", "location"),
   ("lat", "location"), ("lng", "location"), ("images_json", "metadata")]

def change_category (fname : String) : Option String :=
  (tracked_categories.find? (fun p => p.1 == fname)).map (fun p => p.2)

theorem countP_zero_filterMap {α β : Type} (q : α → Prop) [DecidablePred q] (f : α → β) :
    ∀ l : List α, (l.countP fun a => decide (q a)) = 0 →
      l.filterMap (fun x => if q x then some (f x) else none) = [] := by
  intro l
  induction l with
  | nil => simp
  | cons a t ih =>
    intro h
    rw [List.countP_cons] at h
    by_cases hq : q a
    · simp [hq] at h
    · simp only [List.filterMap_cons, if_neg hq]
      refine ih ?_
      simpa [hq] using h

theorem countP_one_filterMap {α β : Type} (q : α → Prop) [DecidablePred q] (f : α → β) :
    ∀ l : List α, (l.countP fun a => decide (q a)) = 1 →
      ∃ a, a ∈ l ∧ q a ∧ l.filterMap (fun x => if q x then some (f x) else none) = [f a] := by
  intro l
  induction l with
  | nil => intro h; simp at h
  | cons a t ih =>
    intro h
    rw [List.countP_cons] at h
    by_cases hq : q a
    · have ht : (t.countP fun x => decide (q x)) = 0 := by
        simp only [decide_eq_true_eq, hq, if_true] at h
        omega
      refine ⟨a, List.mem_cons_self a t, hq, ?_⟩
      simp only [List.filterMap_cons, if_pos hq]
      rw [countP_zero_filterMap q f t ht]
    · have ht : (t.countP fun x => decide (q x)) = 1 := by
        simpa [hq] using h
      obtain ⟨b, hb, hqb, he⟩ := ih ht
      exact ⟨b, List.mem_cons_of_mem a hb,
             hqb, by simp only [List.filterMap_cons, if_neg hq, he]⟩

/-- Every entry of the tracked-field mapping carries the category that
    `change_category` assigns to its field name. -/
theorem field_mapping_category (ex : KimiRow) (l : ScrapedListing) :
    ∀ e ∈ field_mapping ex l, change_category e.1 = some e.2.1 := by
  intro e he
  simp only [field_mapping, List.mem_cons, List.not_mem_nil, or_false] at he
  rcases he with rfl | rfl | rfl | rfl | rfl | rfl | rfl | rfl | rfl | rfl | rfl | rfl <;> rfl

/-- C4 (amended): whenever exactly one tracked-field comparison differs —
    difference measured exactly as `_detect_changes` measures it, i.e. on
    `_normalize_for_compare`-normalized values, the images field being
    compared through its ASCII-escaped JSON serialization — the detector
    emits exactly one `FieldChange`, tagged with the category assigned to
    that field. -/
theorem C4_theorem (ex : KimiRow) (l : ScrapedListing) (now : Int)
    (h : ((field_mapping ex l).countP
        (fun e => decide (normalize_for_compare e.2.2.2 ≠ normalize_for_compare e.2.2.1))) = 1) :
    ∃ c, detect_changes now ex l = [c] ∧ change_category c.field_name = some c.change_type := by
  obtain ⟨e, hmem, hq, he⟩ := countP_one_filterMap
    (fun e => normalize_for_compare e.2.2.2 ≠ normalize_for_compare e.2.2.1)
    (mkFieldChange now) (field_mapping ex l) h
  refine ⟨mkFieldChange now e, ?_, ?_⟩
  · simpa [detect_changes] using he
  · simpa [mkFieldChange] using field_mapping_category ex l e hmem

/-- A listing with a non-ASCII character in an image URL (the common
    case for Mexican portals). -/
def c4L : ScrapedListing :=
  { source_code := "s", source_listing_id := none, url := "https://x.com/p1", url_hash := "h",
    price_amount := some 1500000, images := ["foto-ñ.jpg"] }

/-- The same listing seen again with only its price changed. -/
def c4L2 : ScrapedListing := { c4L with price_amount := some 1400000 }

/-- C4 counterexample: against the canonical row stored for `c4L`, the
    record `c4L2` differs from the store in exactly one tracked field
    value (the price; its images are identical), yet the detector reports
    two `FieldChange`s — the write path serialized `images_json` with
    `ensure_ascii=False` while the comparison re-serializes with ASCII
    escapes. -/
theorem C4_counterexample :
    c4L2.images = c4L.images
  ∧ ((detect_changes 20 ((upsert_listing 10 1 c4L {}).2.listings.headD {}) c4L2).map
       (fun c => c.field_name)) = ["price_amount", "images_json"] :=
  ⟨rfl, by decide⟩

/-- C3 (code_bug evaluation): upserting `c4L` into an empty store
    returns `inserted=true` with no changes, but upserting the *identical*
    record again returns one spurious `FieldChange` on `images_json`
    instead of the zero changes the spec guarantees; `seen_last_at` does
    advance to the second call's clock. -/
theorem C3_theorem :
    (upsert_listing 1000 1 c4L {}).1 = (true, [])
  ∧ (upsert_listing 2000 1 c4L ((upsert_listing 1000 1 c4L {}).2)).1.1 = false
  ∧ ((upsert_listing 2000 1 c4L ((upsert_listing 1000 1 c4L {}).2)).1.2.map
       (fun c => c.field_name)) = ["images_json"]
  ∧ (upsert_listing 2000 1 c4L ((upsert_listing 1000 1 c4L {}).2)).1.2 ≠ []
  ∧ ((upsert_listing 2000 1 c4L ((upsert_listing 1000 1 c4L {}).2)).2.listings.map
       (fun r => r.seen_last_at)) = [2000] :=
  ⟨by decide, by decide, by decide, by decide, by decide⟩

/-- C4 witness: a stored row and an incoming record differing only in
    price produce exactly one `price`-categorized change. -/
theorem C4_witness :
    ∃ c, detect_changes 5
        { dedupe_hash := "d", status := "active", price_amount := some 100, images_json := "[]" }
        { source_code := "x", source_listing_id := none, url := "u", url_hash := "h",
          status := "active", price_amount := some 200 } = [c] ∧
      change_category c.field_name = some c.change_type :=
  C4_theorem
    { dedupe_hash := "d", status := "active", price_amount := some 100, images_json := "[]" }
    { source_code := "x", source_listing_id := none, url := "u", url_hash := "h",
      status := "active", price_amount := some 200 }
    5 (by decide)

end ValoraNL
